import Mathlib

/-!
Shallow embedding of the mcp-domain-checker repository (Go):

* `Namecheap` embeds internal/pkg/namecheap: the registrar client that
  validates credentials, validates the domain list, builds the request URL,
  inspects the decoded XML envelope and maps raw per-domain records to
  normalized results.
* `ToolAdapter` embeds internal/pkg/tool: the generic MCP tool wrapper.

External Go standard-library effects are embedded explicitly:

* `strconv.ParseFloat` is modelled over exact rationals (`ℚ`) restricted to
  plain decimal notation (optional sign, digits with an optional single dot,
  optional decimal exponent).  The repository only feeds it decimal price and
  fee strings, and no claim here depends on binary floating-point rounding.
* `net/url.Parse` success is an oracle parameter `parseOK`; the built URL is
  kept as its base string plus the decoded key/value query pairs
  (`url.Values.Encode` / `Query().Get` round-trip values, which is how the
  repository's own tests read the built URL back).
* the HTTP GET plus XML decode step is an oracle
  `http : BuiltURL → Except Unit APIResponse`; the list of issued requests is
  returned alongside the result so that "no network access" is expressible.
-/

namespace Namecheap

/-- Credentials configuration (`Config` in internal/pkg/namecheap). -/
structure Config where
  apiUser : String
  apiKey : String
  userName : String
  clientIP : String
  endpoint : String
deriving DecidableEq

/-- The service state (`Service`); the zap logger field is dropped as a pure
side-effect sink. -/
structure Service where
  config : Config
deriving DecidableEq

/-- One raw per-domain record of the decoded XML envelope
(`DomainCheckResult`): all attributes are strings, as received. -/
structure DomainCheckResult where
  domain : String
  available : String
  isPremiumName : String
  premiumRegistrationPrice : String
  premiumRenewalPrice : String
  icannFee : String
  eapFee : String
  errorNo : String
  description : String
deriving DecidableEq

/-- Normalized per-domain outcome (`Result`); Go float64 prices and fees are
embedded as exact rationals. -/
structure Result where
  domain : String
  available : Bool
  isPremiumName : Bool
  premiumRegistrationPrice : ℚ
  premiumRenewalPrice : ℚ
  icannFee : ℚ
  eapFee : ℚ
  error : String
deriving DecidableEq

/-- One `Errors/Error` entry of the envelope (`Error`): attribute `Number`
plus the text content. -/
structure ApiError where
  number : String
  message : String
deriving DecidableEq

/-- The `Errors` section of the envelope. -/
structure ApiErrors where
  error : List ApiError
deriving DecidableEq

/-- The `CommandResponse` section of the envelope. -/
structure CommandResponse where
  type : String
  domainCheckResults : List DomainCheckResult
deriving DecidableEq

/-- The decoded XML envelope (`APIResponse`). -/
structure APIResponse where
  status : String
  errors : ApiErrors
  commandResponse : CommandResponse
deriving DecidableEq

/-- The error values of the namecheap package.  `apiError` carries the
message interpolated by `fmt.Errorf("%w: %s", ErrAPIError, errorMsg)`;
`httpOrDecodeFailed` stands for the wrapped transport or XML-decode errors,
whose underlying cause lives outside this embedding. -/
inductive NCError where
  | missingDomains
  | missingAPICredentials
  | maxDomainsExceeded
  | requestBuildFailed
  | httpOrDecodeFailed
  | apiError (msg : String)
deriving DecidableEq

/-- `maxDomainsPerCheck`: maximum number of domains in one API request. -/
def maxDomainsPerCheck : Nat := 50

/-- Strips an optional leading sign, returning the sign as `1` or `-1`
together with the remaining characters. -/
def splitSign : List Char → Int × List Char
  | '+' :: rest => (1, rest)
  | '-' :: rest => (-1, rest)
  | cs => (1, cs)

/-- Takes the maximal run of leading decimal digits. -/
def takeDigits : List Char → List Char × List Char
  | [] => ([], [])
  | c :: rest =>
    if c.isDigit then
      let (ds, r) := takeDigits rest
      (c :: ds, r)
    else ([], c :: rest)

/-- Value of a digit run read in base ten. -/
def digitsToNat (ds : List Char) : Nat :=
  ds.foldl (fun a c => 10 * a + (c.toNat - 48)) 0

/-- Parses the mantissa: digits with an optional single dot, at least one
digit overall; returns its exact rational value and the rest. -/
def parseMantissa (cs : List Char) : Option (ℚ × List Char) :=
  let (ip, rest) := takeDigits cs
  match rest with
  | '.' :: rest2 =>
    let (fp, rest3) := takeDigits rest2
    if ip.isEmpty && fp.isEmpty then none
    else some ((digitsToNat ip : ℚ) + (digitsToNat fp : ℚ) / (10 ^ fp.length : ℚ), rest3)
  | _ => if ip.isEmpty then none else some ((digitsToNat ip : ℚ), rest)

/-- Parses a decimal exponent part (after `e`/`E`): optional sign then at
least one digit. -/
def parseExponent (cs : List Char) : Option (Int × List Char) :=
  let (sign, cs1) := splitSign cs
  let (ds, rest) := takeDigits cs1
  if ds.isEmpty then none else some (sign * (digitsToNat ds : Int), rest)

/-- Plain decimal number: optional sign, mantissa, optional exponent, nothing
left over. -/
def parseDecimal (s : String) : Option ℚ :=
  let (sign, cs) := splitSign s.toList
  match parseMantissa cs with
  | none => none
  | some (m, rest) =>
    match rest with
    | [] => some (sign * m)
    | 'e' :: rest2 =>
      match parseExponent rest2 with
      | some (e, []) => some (sign * m * (10 : ℚ) ^ e)
      | _ => none
    | 'E' :: rest2 =>
      match parseExponent rest2 with
      | some (e, []) => some (sign * m * (10 : ℚ) ^ e)
      | _ => none
    | _ => none

/-- `ParseFloat` (internal/pkg/namecheap): the empty string parses to zero
with no error; otherwise defer to `strconv.ParseFloat`, modelled by
`parseDecimal` over exact rationals.  `none` is the error case. -/
def ParseFloat (s : String) : Option ℚ :=
  if s = "" then some 0 else parseDecimal s

/-- The record literal the `parseResults` loop starts each iteration with:
availability and premium flags by exact comparison to the literal "true",
every other field at its zero default. -/
def initResult (domainResult : DomainCheckResult) : Result :=
  { domain := domainResult.domain
    available := domainResult.available == "true"
    isPremiumName := domainResult.isPremiumName == "true"
    premiumRegistrationPrice := 0
    premiumRenewalPrice := 0
    icannFee := 0
    eapFee := 0
    error := "" }

/-- Source lines 1115–1117: set `Error` to the description when the record
carries an error number other than "0" and a non-empty description. -/
def setError (domainResult : DomainCheckResult) (result : Result) : Result :=
  if domainResult.errorNo != "0" && domainResult.description != "" then
    { result with error := domainResult.description }
  else result

/-- Source lines 1119–1129: when the premium flag maps to true, overwrite
each premium price with its parsed value when parsing succeeds. -/
def setPremiumPrices (domainResult : DomainCheckResult) (result : Result) : Result :=
  if result.isPremiumName then
    let result :=
      match ParseFloat domainResult.premiumRegistrationPrice with
      | some price => { result with premiumRegistrationPrice := price }
      | none => result
    match ParseFloat domainResult.premiumRenewalPrice with
    | some price => { result with premiumRenewalPrice := price }
    | none => result
  else result

/-- Source lines 1131–1134: overwrite the ICANN fee when parsing succeeds. -/
def setIcannFee (domainResult : DomainCheckResult) (result : Result) : Result :=
  match ParseFloat domainResult.icannFee with
  | some fee => { result with icannFee := fee }
  | none => result

/-- Source lines 1136–1139: overwrite the EAP fee when parsing succeeds. -/
def setEapFee (domainResult : DomainCheckResult) (result : Result) : Result :=
  match ParseFloat domainResult.eapFee with
  | some fee => { result with eapFee := fee }
  | none => result

/-- Loop body of `parseResults`: the source's sequence of conditional
updates of the `result` variable, one stage function per statement. -/
def parseOneResult (domainResult : DomainCheckResult) : Result :=
  setEapFee domainResult
    (setIcannFee domainResult
      (setPremiumPrices domainResult
        (setError domainResult (initResult domainResult))))

/-- `parseResults`: maps every raw record in order; the Go loop appends one
result per record and never aborts.  The method receiver is unused by the
source, so this is a free function (cf. the repository's own test of it). -/
def parseResults (domainResults : List DomainCheckResult) : List Result :=
  domainResults.map parseOneResult

/-- The URL produced by `buildRequestURL`: the endpoint string passed to
`url.Parse` plus the query parameters in the decoded key/value view that
`url.Values` holds before `Encode` percent-encodes them (the repository's
tests read them back with `Query().Get`, which round-trips the values). -/
structure BuiltURL where
  base : String
  query : List (String × String)
deriving DecidableEq

/-- `url.Values.Get`: first value stored under the key. -/
def getQuery (u : BuiltURL) (key : String) : Option String :=
  (u.query.find? (fun p => p.1 == key)).map Prod.snd

/-- `buildRequestURL`: parses the base URL (`url.Parse` success is the
oracle `parseOK`, a standard-library behaviour outside this repository) and
attaches the six query parameters in the source's `params.Add` order. -/
def buildRequestURL (parseOK : String → Bool) (n : Service)
    (baseURL domainList : String) : Except Unit BuiltURL :=
  if parseOK baseURL then
    Except.ok
      { base := baseURL
        query :=
          [("ApiUser", n.config.apiUser),
           ("ApiKey", n.config.apiKey),
           ("UserName", n.config.userName),
           ("ClientIp", n.config.clientIP),
           ("Command", "namecheap.domains.check"),
           ("DomainList", domainList)] }
  else Except.error ()

/-- The message selected for `ErrAPIError` when the envelope status is not
"OK": the first entry of `Errors.Error`, or `"unknown error"` when that list
is empty (lines 1063–1066 of the source). -/
def firstErrorMessage (apiResp : APIResponse) : String :=
  match apiResp.errors.error with
  | [] => "unknown error"
  | e :: _ => e.message

/-- `checkDomains`: joins the domains with commas, builds the request URL,
performs the HTTP GET plus XML decode (the oracle `http`), rejects a
non-"OK" envelope and otherwise maps the raw records.  The second component
is the list of HTTP requests issued during the call. -/
def checkDomains (parseOK : String → Bool)
    (http : BuiltURL → Except Unit APIResponse) (n : Service)
    (domains : List String) : Except NCError (List Result) × List BuiltURL :=
  let domainList := String.intercalate "," domains
  match buildRequestURL parseOK n n.config.endpoint domainList with
  | Except.error _ => (Except.error NCError.requestBuildFailed, [])
  | Except.ok reqURL =>
    match http reqURL with
    | Except.error _ => (Except.error NCError.httpOrDecodeFailed, [reqURL])
    | Except.ok apiResp =>
      if apiResp.status ≠ "OK" then
        (Except.error (NCError.apiError (firstErrorMessage apiResp)), [reqURL])
      else
        (Except.ok (parseResults apiResp.commandResponse.domainCheckResults), [reqURL])

/-- `DomainsCheck`: rejects an empty list, then a list of more than
`maxDomainsPerCheck` domains, before `checkDomains` does anything; the
issued-request list of the two rejection branches is empty. -/
def DomainsCheck (parseOK : String → Bool)
    (http : BuiltURL → Except Unit APIResponse) (n : Service)
    (domains : List String) : Except NCError (List Result) × List BuiltURL :=
  if domains.length = 0 then (Except.error NCError.missingDomains, [])
  else if domains.length > maxDomainsPerCheck then
    (Except.error NCError.maxDomainsExceeded, [])
  else checkDomains parseOK http n domains

/-- `NewNamecheapTool`: fails with `ErrMissingAPICredentials` when the API
user, API key, account username or client IP is empty; the endpoint is not
inspected and the configuration is stored unchanged. -/
def NewNamecheapTool (config : Config) : Except NCError Service :=
  if config.apiUser == "" || config.apiKey == "" || config.userName == "" ||
      config.clientIP == "" then
    Except.error NCError.missingAPICredentials
  else Except.ok { config := config }

/-- The default production endpoint: the `envDefault` of
`NAMECHEAP_ENDPOINT` in cmd/app/config.go, applied by the environment
loader, not by the registrar client. -/
def defaultProductionEndpoint : String := "https://api.namecheap.com/xml.response"

end Namecheap

namespace ToolAdapter

/-- `mcp.Annotations` as used by the adapter: audience roles and priority. -/
structure Annotations where
  audience : List String
  priority : ℚ
deriving DecidableEq

/-- `mcp.TextContent` as used by the adapter. -/
structure TextContent where
  text : String
  annotations : Annotations
deriving DecidableEq

/-- `mcp.CallToolResult` as used by the adapter: error flag plus the list of
content units. -/
structure CallToolResult where
  isError : Bool
  content : List TextContent
deriving DecidableEq

/-- The Go `error` results `Handler` can return: either the wrapped
component's failure, carried verbatim (the source returns `err` unchanged),
or the marshalling failure wrapped by
`fmt.Errorf("error marshaling results to JSON: %w", err)`, carrying the
underlying cause. -/
inductive HandlerFailure (E : Type) where
  | execute (e : E)
  | marshalFailed (cause : String)
deriving DecidableEq

/-- `Tool.Handler` (internal/pkg/tool/tool.go): calls the wrapped service's
`Execute`, serializes the output with `json.Marshal` (the oracle
`jsonMarshal`, whose `Except.error` case is an output with no JSON
representation) and wraps it in a single annotated text content unit.  The
triple mirrors the Go return `(result, output, err)`; `default` is Go's
`var zero Out`. -/
def Handler {In Out E : Type} [Inhabited Out]
    (execute : In → Except E Out) (jsonMarshal : Out → Except String String)
    (args : In) : Option CallToolResult × Out × Option (HandlerFailure E) :=
  match execute args with
  | Except.error err => (none, default, some (HandlerFailure.execute err))
  | Except.ok output =>
    match jsonMarshal output with
    | Except.error err => (none, default, some (HandlerFailure.marshalFailed err))
    | Except.ok jsonData =>
      (some
        { isError := false
          content :=
            [{ text := jsonData
               annotations := { audience := ["assistant"], priority := 1 } }] },
       output, none)

end ToolAdapter

/-! ### Concrete sample data used by the witnesses and counterexamples below -/

namespace Namecheap

/-- Sample raw record: non-premium flag with nonzero premium price attributes. -/
def sampleNonPremiumRecord : DomainCheckResult :=
  { domain := "regular.com", available := "true", isPremiumName := "false"
    premiumRegistrationPrice := "1000.00", premiumRenewalPrice := "500.00"
    icannFee := "", eapFee := "", errorNo := "0", description := "" }

/-- Sample raw record carrying a per-domain error. -/
def sampleErrorRecord : DomainCheckResult :=
  { domain := "error.com", available := "false", isPremiumName := ""
    premiumRegistrationPrice := "", premiumRenewalPrice := ""
    icannFee := "", eapFee := "", errorNo := "1", description := "Domain check failed" }

/-- Sample raw record with error number "0" but a non-empty description. -/
def sampleOkRecord : DomainCheckResult :=
  { domain := "ok.com", available := "true", isPremiumName := ""
    premiumRegistrationPrice := "", premiumRenewalPrice := ""
    icannFee := "", eapFee := "", errorNo := "0", description := "no error here" }

/-- Sample raw record whose numeric attributes are all malformed. -/
def sampleMalformedRecord : DomainCheckResult :=
  { domain := "bad.com", available := "true", isPremiumName := "true"
    premiumRegistrationPrice := "invalid", premiumRenewalPrice := "10.5abc"
    icannFee := "abc", eapFee := "--5", errorNo := "0", description := "" }

/-- Sample credentials with every mandatory field present. -/
def sampleConfig : Config :=
  { apiUser := "user", apiKey := "key", userName := "username"
    clientIP := "127.0.0.1", endpoint := "https://api.namecheap.com/xml.response" }

/-- Sample service built over `sampleConfig`. -/
def sampleService : Service := { config := sampleConfig }

/-- Sample "OK" envelope carrying the malformed record. -/
def sampleOkResponse : APIResponse :=
  { status := "OK", errors := { error := [] }
    commandResponse :=
      { type := "namecheap.domains.check", domainCheckResults := [sampleMalformedRecord] } }

/-- Sample raw record with negative decimal fee attributes. -/
def sampleNegativeFeeRecord : DomainCheckResult :=
  { domain := "neg.com", available := "true", isPremiumName := "true"
    premiumRegistrationPrice := "-3", premiumRenewalPrice := ""
    icannFee := "-0.18", eapFee := "-10.5", errorNo := "0", description := "" }

/-- Sample non-"OK" envelope with one error entry. -/
def sampleErrorResponse : APIResponse :=
  { status := "ERROR"
    errors := { error := [{ number := "1011102", message := "API Key is invalid" }] }
    commandResponse := { type := "", domainCheckResults := [] } }

/-- The credentials of the request-construction property: the four account
fields fixed, the endpoint free. -/
def testCredentials (endpoint : String) : Config :=
  { apiUser := "testuser", apiKey := "testkey", userName := "testusername"
    clientIP := "192.168.1.1", endpoint := endpoint }

/-- Valid credentials whose endpoint field is empty. -/
def sampleConfigNoEndpoint : Config :=
  { apiUser := "user", apiKey := "key", userName := "username"
    clientIP := "127.0.0.1", endpoint := "" }

end Namecheap

/-! ### Field characterizations of the result-mapping stages -/

namespace Namecheap

theorem setError_error (d : DomainCheckResult) (r : Result) :
    (setError d r).error =
      if d.errorNo != "0" && d.description != "" then d.description else r.error := by
  unfold setError; split <;> simp_all

theorem setError_isPremiumName (d : DomainCheckResult) (r : Result) :
    (setError d r).isPremiumName = r.isPremiumName := by
  unfold setError; split <;> rfl

theorem setError_premiumRegistrationPrice (d : DomainCheckResult) (r : Result) :
    (setError d r).premiumRegistrationPrice = r.premiumRegistrationPrice := by
  unfold setError; split <;> rfl

theorem setError_premiumRenewalPrice (d : DomainCheckResult) (r : Result) :
    (setError d r).premiumRenewalPrice = r.premiumRenewalPrice := by
  unfold setError; split <;> rfl

theorem setError_icannFee (d : DomainCheckResult) (r : Result) :
    (setError d r).icannFee = r.icannFee := by
  unfold setError; split <;> rfl

theorem setError_eapFee (d : DomainCheckResult) (r : Result) :
    (setError d r).eapFee = r.eapFee := by
  unfold setError; split <;> rfl

theorem setPremiumPrices_isPremiumName (d : DomainCheckResult) (r : Result) :
    (setPremiumPrices d r).isPremiumName = r.isPremiumName := by
  by_cases hp : r.isPremiumName = true
  · rcases h1 : ParseFloat d.premiumRegistrationPrice with _ | a <;>
    rcases h2 : ParseFloat d.premiumRenewalPrice with _ | b <;>
    simp [setPremiumPrices, hp, h1, h2]
  · simp [setPremiumPrices, hp]

theorem setPremiumPrices_error (d : DomainCheckResult) (r : Result) :
    (setPremiumPrices d r).error = r.error := by
  by_cases hp : r.isPremiumName = true
  · rcases h1 : ParseFloat d.premiumRegistrationPrice with _ | a <;>
    rcases h2 : ParseFloat d.premiumRenewalPrice with _ | b <;>
    simp [setPremiumPrices, hp, h1, h2]
  · simp [setPremiumPrices, hp]

theorem setPremiumPrices_icannFee (d : DomainCheckResult) (r : Result) :
    (setPremiumPrices d r).icannFee = r.icannFee := by
  by_cases hp : r.isPremiumName = true
  · rcases h1 : ParseFloat d.premiumRegistrationPrice with _ | a <;>
    rcases h2 : ParseFloat d.premiumRenewalPrice with _ | b <;>
    simp [setPremiumPrices, hp, h1, h2]
  · simp [setPremiumPrices, hp]

theorem setPremiumPrices_eapFee (d : DomainCheckResult) (r : Result) :
    (setPremiumPrices d r).eapFee = r.eapFee := by
  by_cases hp : r.isPremiumName = true
  · rcases h1 : ParseFloat d.premiumRegistrationPrice with _ | a <;>
    rcases h2 : ParseFloat d.premiumRenewalPrice with _ | b <;>
    simp [setPremiumPrices, hp, h1, h2]
  · simp [setPremiumPrices, hp]

theorem setPremiumPrices_premiumRegistrationPrice (d : DomainCheckResult) (r : Result) :
    (setPremiumPrices d r).premiumRegistrationPrice =
      if r.isPremiumName then (ParseFloat d.premiumRegistrationPrice).getD r.premiumRegistrationPrice
      else r.premiumRegistrationPrice := by
  by_cases hp : r.isPremiumName = true
  · rcases h1 : ParseFloat d.premiumRegistrationPrice with _ | a <;>
    rcases h2 : ParseFloat d.premiumRenewalPrice with _ | b <;>
    simp [setPremiumPrices, hp, h1, h2]
  · simp [setPremiumPrices, hp]

theorem setPremiumPrices_premiumRenewalPrice (d : DomainCheckResult) (r : Result) :
    (setPremiumPrices d r).premiumRenewalPrice =
      if r.isPremiumName then (ParseFloat d.premiumRenewalPrice).getD r.premiumRenewalPrice
      else r.premiumRenewalPrice := by
  by_cases hp : r.isPremiumName = true
  · rcases h1 : ParseFloat d.premiumRegistrationPrice with _ | a <;>
    rcases h2 : ParseFloat d.premiumRenewalPrice with _ | b <;>
    simp [setPremiumPrices, hp, h1, h2]
  · simp [setPremiumPrices, hp]

theorem setIcannFee_icannFee (d : DomainCheckResult) (r : Result) :
    (setIcannFee d r).icannFee = (ParseFloat d.icannFee).getD r.icannFee := by
  rcases h : ParseFloat d.icannFee with _ | a <;> simp [setIcannFee, h]

theorem setIcannFee_isPremiumName (d : DomainCheckResult) (r : Result) :
    (setIcannFee d r).isPremiumName = r.isPremiumName := by
  rcases h : ParseFloat d.icannFee with _ | a <;> simp [setIcannFee, h]

theorem setIcannFee_error (d : DomainCheckResult) (r : Result) :
    (setIcannFee d r).error = r.error := by
  rcases h : ParseFloat d.icannFee with _ | a <;> simp [setIcannFee, h]

theorem setIcannFee_premiumRegistrationPrice (d : DomainCheckResult) (r : Result) :
    (setIcannFee d r).premiumRegistrationPrice = r.premiumRegistrationPrice := by
  rcases h : ParseFloat d.icannFee with _ | a <;> simp [setIcannFee, h]

theorem setIcannFee_premiumRenewalPrice (d : DomainCheckResult) (r : Result) :
    (setIcannFee d r).premiumRenewalPrice = r.premiumRenewalPrice := by
  rcases h : ParseFloat d.icannFee with _ | a <;> simp [setIcannFee, h]

theorem setIcannFee_eapFee (d : DomainCheckResult) (r : Result) :
    (setIcannFee d r).eapFee = r.eapFee := by
  rcases h : ParseFloat d.icannFee with _ | a <;> simp [setIcannFee, h]

theorem setEapFee_eapFee (d : DomainCheckResult) (r : Result) :
    (setEapFee d r).eapFee = (ParseFloat d.eapFee).getD r.eapFee := by
  rcases h : ParseFloat d.eapFee with _ | a <;> simp [setEapFee, h]

theorem setEapFee_isPremiumName (d : DomainCheckResult) (r : Result) :
    (setEapFee d r).isPremiumName = r.isPremiumName := by
  rcases h : ParseFloat d.eapFee with _ | a <;> simp [setEapFee, h]

theorem setEapFee_error (d : DomainCheckResult) (r : Result) :
    (setEapFee d r).error = r.error := by
  rcases h : ParseFloat d.eapFee with _ | a <;> simp [setEapFee, h]

theorem setEapFee_premiumRegistrationPrice (d : DomainCheckResult) (r : Result) :
    (setEapFee d r).premiumRegistrationPrice = r.premiumRegistrationPrice := by
  rcases h : ParseFloat d.eapFee with _ | a <;> simp [setEapFee, h]

theorem setEapFee_premiumRenewalPrice (d : DomainCheckResult) (r : Result) :
    (setEapFee d r).premiumRenewalPrice = r.premiumRenewalPrice := by
  rcases h : ParseFloat d.eapFee with _ | a <;> simp [setEapFee, h]

theorem setEapFee_icannFee (d : DomainCheckResult) (r : Result) :
    (setEapFee d r).icannFee = r.icannFee := by
  rcases h : ParseFloat d.eapFee with _ | a <;> simp [setEapFee, h]

theorem parseOneResult_isPremiumName (d : DomainCheckResult) :
    (parseOneResult d).isPremiumName = (d.isPremiumName == "true") := by
  simp [parseOneResult, setEapFee_isPremiumName, setIcannFee_isPremiumName,
    setPremiumPrices_isPremiumName, setError_isPremiumName, initResult]

theorem parseOneResult_error (d : DomainCheckResult) :
    (parseOneResult d).error =
      if d.errorNo ≠ "0" ∧ d.description ≠ "" then d.description else "" := by
  by_cases h : d.errorNo ≠ "0" ∧ d.description ≠ "" <;>
  simp_all [parseOneResult, setEapFee_error, setIcannFee_error,
    setPremiumPrices_error, setError_error, initResult, bne_iff_ne]

theorem parseOneResult_premiumRegistrationPrice (d : DomainCheckResult) :
    (parseOneResult d).premiumRegistrationPrice =
      if d.isPremiumName == "true" then (ParseFloat d.premiumRegistrationPrice).getD 0
      else 0 := by
  simp [parseOneResult, setEapFee_premiumRegistrationPrice,
    setIcannFee_premiumRegistrationPrice, setPremiumPrices_premiumRegistrationPrice,
    setError_premiumRegistrationPrice, setError_isPremiumName, initResult]

theorem parseOneResult_premiumRenewalPrice (d : DomainCheckResult) :
    (parseOneResult d).premiumRenewalPrice =
      if d.isPremiumName == "true" then (ParseFloat d.premiumRenewalPrice).getD 0
      else 0 := by
  simp [parseOneResult, setEapFee_premiumRenewalPrice,
    setIcannFee_premiumRenewalPrice, setPremiumPrices_premiumRenewalPrice,
    setError_premiumRenewalPrice, setError_isPremiumName, initResult]

theorem parseOneResult_icannFee (d : DomainCheckResult) :
    (parseOneResult d).icannFee = (ParseFloat d.icannFee).getD 0 := by
  simp [parseOneResult, setEapFee_icannFee, setIcannFee_icannFee,
    setPremiumPrices_icannFee, setError_icannFee, initResult]

theorem parseOneResult_eapFee (d : DomainCheckResult) :
    (parseOneResult d).eapFee = (ParseFloat d.eapFee).getD 0 := by
  simp [parseOneResult, setEapFee_eapFee, setIcannFee_eapFee,
    setPremiumPrices_eapFee, setError_eapFee, initResult]

end Namecheap

/-! ### The claims -/

namespace Namecheap

/-- C1: for every list of raw domain-check records, `parseResults` populates
the two premium price fields only when the record's premium flag maps to
true: every record whose `IsPremiumName` attribute is not exactly "true"
maps to a result with `isPremiumName = false` and both premium price fields
zero, regardless of any nonzero values in the record's premium price
attributes. -/
theorem premium_prices_zero_for_non_premium (l : List DomainCheckResult) (i : ℕ)
    (d : DomainCheckResult) (hd : l[i]? = some d) (hp : d.isPremiumName ≠ "true") :
    (parseResults l)[i]? = some (parseOneResult d) ∧
    (parseOneResult d).isPremiumName = false ∧
    (parseOneResult d).premiumRegistrationPrice = 0 ∧
    (parseOneResult d).premiumRenewalPrice = 0 := by
  refine ⟨?_, ?_, ?_, ?_⟩
  · simp [parseResults, hd]
  · rw [parseOneResult_isPremiumName]; simp [hp]
  · rw [parseOneResult_premiumRegistrationPrice]; simp [hp]
  · rw [parseOneResult_premiumRenewalPrice]; simp [hp]

/-- C1 witness: the non-premium record with premium price attributes
"1000.00" and "500.00" still maps to zero premium prices. -/
theorem premium_prices_zero_for_non_premium_witness :
    ([sampleNonPremiumRecord][0]? = some sampleNonPremiumRecord ∧
      sampleNonPremiumRecord.isPremiumName ≠ "true") ∧
    ((parseResults [sampleNonPremiumRecord])[0]? = some (parseOneResult sampleNonPremiumRecord) ∧
     (parseOneResult sampleNonPremiumRecord).isPremiumName = false ∧
     (parseOneResult sampleNonPremiumRecord).premiumRegistrationPrice = 0 ∧
     (parseOneResult sampleNonPremiumRecord).premiumRenewalPrice = 0) :=
  ⟨⟨rfl, by decide⟩,
    premium_prices_zero_for_non_premium [sampleNonPremiumRecord] 0 sampleNonPremiumRecord rfl
      (by decide)⟩

/-- C5: the mapped result's error field is set (to the record's
`Description`) exactly when the record carries an error number other than
"0" and a non-empty description; in particular `ErrorNo = "0"` never sets
it even with a non-empty description.  `parseResults` receives only the
record list, so the rule is independent of the envelope's top-level status,
and the mapping never aborts: it is length-preserving and maps every
index. -/
theorem error_field_rule (l : List DomainCheckResult) (i : ℕ)
    (d : DomainCheckResult) (hd : l[i]? = some d) :
    (parseResults l)[i]? = some (parseOneResult d) ∧
    (parseResults l).length = l.length ∧
    (parseOneResult d).error =
      (if d.errorNo ≠ "0" ∧ d.description ≠ "" then d.description else "") := by
  refine ⟨?_, ?_, ?_⟩
  · simp [parseResults, hd]
  · simp [parseResults]
  · exact parseOneResult_error d

/-- C5 witness: a record with `ErrorNo = "1"` and description
"Domain check failed" in a two-record batch maps with that error set, and
the batch keeps both records. -/
theorem error_field_rule_witness :
    ([sampleErrorRecord, sampleOkRecord][0]? = some sampleErrorRecord) ∧
    ((parseResults [sampleErrorRecord, sampleOkRecord])[0]? = some (parseOneResult sampleErrorRecord) ∧
     (parseResults [sampleErrorRecord, sampleOkRecord]).length = [sampleErrorRecord, sampleOkRecord].length ∧
     (parseOneResult sampleErrorRecord).error =
       (if sampleErrorRecord.errorNo ≠ "0" ∧ sampleErrorRecord.description ≠ "" then
          sampleErrorRecord.description else "")) :=
  ⟨rfl, error_field_rule [sampleErrorRecord, sampleOkRecord] 0 sampleErrorRecord rfl⟩

/-- C6: numeric attributes are parsed best-effort: the empty string parses
to zero with no error; well-formed decimal strings ("100", "10.5", "-10.5")
parse to their values; malformed non-empty strings ("invalid", "10.5abc")
fail to parse, and a failed parse leaves the corresponding output field at
its zero default; the batch mapping is total and length-preserving, and a
check whose envelope decodes with status "OK" succeeds no matter what the
records contain. -/
theorem numeric_parsing_best_effort :
    (ParseFloat "" = some 0 ∧ ParseFloat "100" = some 100 ∧
     ParseFloat "10.5" = some (21 / 2) ∧ ParseFloat "-10.5" = some (-(21 / 2)) ∧
     ParseFloat "invalid" = none ∧ ParseFloat "10.5abc" = none) ∧
    (∀ d : DomainCheckResult,
      (ParseFloat d.premiumRegistrationPrice = none →
        (parseOneResult d).premiumRegistrationPrice = 0) ∧
      (ParseFloat d.premiumRenewalPrice = none → (parseOneResult d).premiumRenewalPrice = 0) ∧
      (ParseFloat d.icannFee = none → (parseOneResult d).icannFee = 0) ∧
      (ParseFloat d.eapFee = none → (parseOneResult d).eapFee = 0)) ∧
    (∀ l : List DomainCheckResult, (parseResults l).length = l.length) ∧
    (∀ (parseOK : String → Bool) (http : BuiltURL → Except Unit APIResponse) (n : Service)
        (resp : APIResponse) (domains : List String),
      parseOK n.config.endpoint = true → http = (fun _ => Except.ok resp) →
      resp.status = "OK" →
      (checkDomains parseOK http n domains).1 =
        Except.ok (parseResults resp.commandResponse.domainCheckResults)) := by
  refine ⟨⟨rfl, ?_, ?_, ?_, by decide, by decide⟩, ?_, ?_, ?_⟩
  · rw [show ParseFloat "100" = some ((((1 : Int)) : ℚ) * (100 : ℚ)) from rfl]; norm_num
  · rw [show ParseFloat "10.5" =
        some ((((1 : Int)) : ℚ) * ((10 : ℚ) + (5 : ℚ) / (10 : ℚ) ^ 1)) from rfl]
    norm_num
  · rw [show ParseFloat "-10.5" =
        some ((((-1 : Int)) : ℚ) * ((10 : ℚ) + (5 : ℚ) / (10 : ℚ) ^ 1)) from rfl]
    norm_num
  · intro d
    refine ⟨?_, ?_, ?_, ?_⟩
    · intro h; rw [parseOneResult_premiumRegistrationPrice, h]; split <;> rfl
    · intro h; rw [parseOneResult_premiumRenewalPrice, h]; split <;> rfl
    · intro h; rw [parseOneResult_icannFee, h]; rfl
    · intro h; rw [parseOneResult_eapFee, h]; rfl
  · intro l; simp [parseResults]
  · intro parseOK http n resp domains hp hh hs
    subst hh
    simp [checkDomains, buildRequestURL, hp, hs]

/-- C6 witness: the record whose four numeric attributes are all malformed
maps with all four numeric output fields zero, and a check returning an
"OK" envelope holding that record still succeeds. -/
theorem numeric_parsing_best_effort_witness :
    (ParseFloat sampleMalformedRecord.premiumRegistrationPrice = none ∧
     ParseFloat sampleMalformedRecord.premiumRenewalPrice = none ∧
     ParseFloat sampleMalformedRecord.icannFee = none ∧
     ParseFloat sampleMalformedRecord.eapFee = none) ∧
    ((parseOneResult sampleMalformedRecord).premiumRegistrationPrice = 0 ∧
     (parseOneResult sampleMalformedRecord).premiumRenewalPrice = 0 ∧
     (parseOneResult sampleMalformedRecord).icannFee = 0 ∧
     (parseOneResult sampleMalformedRecord).eapFee = 0) ∧
    (checkDomains (fun _ => true) (fun _ => Except.ok sampleOkResponse) sampleService
        ["bad.com"]).1 =
      Except.ok (parseResults sampleOkResponse.commandResponse.domainCheckResults) :=
  ⟨⟨by decide, by decide, by decide, by decide⟩,
   ⟨(numeric_parsing_best_effort.2.1 sampleMalformedRecord).1 (by decide),
    (numeric_parsing_best_effort.2.1 sampleMalformedRecord).2.1 (by decide),
    (numeric_parsing_best_effort.2.1 sampleMalformedRecord).2.2.1 (by decide),
    (numeric_parsing_best_effort.2.1 sampleMalformedRecord).2.2.2 (by decide)⟩,
   numeric_parsing_best_effort.2.2.2 (fun _ => true) (fun _ => Except.ok sampleOkResponse)
     sampleService sampleOkResponse ["bad.com"] rfl rfl rfl⟩

/-- C10 counterexample: the claim "every mapped result has
premium-registration-price, premium-renewal-price, ICANN fee and EAP fee
all ≥ 0" fails at a concrete record: `EapFee = "-10.5"` maps to the EAP fee
-10.5 < 0, because `ParseFloat` accepts negative decimals (the repository's
own `TestParseFloat` requires "-10.5" to parse to -10.5) and `parseResults`
never clamps. -/
theorem result_fee_nonneg_cex :
    (parseResults [sampleNegativeFeeRecord]).map Result.eapFee = [-(21 / 2)] ∧
    ¬ (0 : ℚ) ≤ -(21 / 2 : ℚ) := by
  constructor
  · simp only [parseResults, List.map_cons, List.map_nil]
    rw [parseOneResult_eapFee]
    rw [show ParseFloat sampleNegativeFeeRecord.eapFee =
        some ((((-1 : Int)) : ℚ) * ((10 : ℚ) + (5 : ℚ) / (10 : ℚ) ^ 1)) from rfl]
    norm_num
  · norm_num

/-- C10 amended: every mapped result's premium prices and fees are ≥ 0
provided every numeric attribute of every record in the batch either fails
to parse or parses to a nonnegative value; the code carries upstream
negative values through unchanged. -/
theorem result_fees_nonneg_of_nonneg_upstream (l : List DomainCheckResult)
    (h : ∀ d ∈ l, ∀ v : ℚ,
      (ParseFloat d.premiumRegistrationPrice = some v ∨
       ParseFloat d.premiumRenewalPrice = some v ∨
       ParseFloat d.icannFee = some v ∨
       ParseFloat d.eapFee = some v) → 0 ≤ v) :
    ∀ r ∈ parseResults l,
      0 ≤ r.premiumRegistrationPrice ∧ 0 ≤ r.premiumRenewalPrice ∧
      0 ≤ r.icannFee ∧ 0 ≤ r.eapFee := by
  intro r hr
  rw [parseResults, List.mem_map] at hr
  obtain ⟨d, hdl, rfl⟩ := hr
  refine ⟨?_, ?_, ?_, ?_⟩
  · rw [parseOneResult_premiumRegistrationPrice]
    split
    · rcases hpf : ParseFloat d.premiumRegistrationPrice with _ | v
      · simp
      · simpa [hpf] using h d hdl v (Or.inl hpf)
    · exact le_refl 0
  · rw [parseOneResult_premiumRenewalPrice]
    split
    · rcases hpf : ParseFloat d.premiumRenewalPrice with _ | v
      · simp
      · simpa [hpf] using h d hdl v (Or.inr (Or.inl hpf))
    · exact le_refl 0
  · rw [parseOneResult_icannFee]
    rcases hpf : ParseFloat d.icannFee with _ | v
    · simp
    · simpa [hpf] using h d hdl v (Or.inr (Or.inr (Or.inl hpf)))
  · rw [parseOneResult_eapFee]
    rcases hpf : ParseFloat d.eapFee with _ | v
    · simp
    · simpa [hpf] using h d hdl v (Or.inr (Or.inr (Or.inr hpf)))

/-- C10 amended witness: a batch of one record whose numeric attributes
are all empty (parsing to zero) yields only nonnegative fields. -/
theorem result_fees_nonneg_of_nonneg_upstream_witness :
    (∀ d ∈ [sampleErrorRecord], ∀ v : ℚ,
      (ParseFloat d.premiumRegistrationPrice = some v ∨
       ParseFloat d.premiumRenewalPrice = some v ∨
       ParseFloat d.icannFee = some v ∨
       ParseFloat d.eapFee = some v) → 0 ≤ v) ∧
    (∀ r ∈ parseResults [sampleErrorRecord],
      0 ≤ r.premiumRegistrationPrice ∧ 0 ≤ r.premiumRenewalPrice ∧
      0 ≤ r.icannFee ∧ 0 ≤ r.eapFee) := by
  have h : ∀ d ∈ [sampleErrorRecord], ∀ v : ℚ,
      (ParseFloat d.premiumRegistrationPrice = some v ∨
       ParseFloat d.premiumRenewalPrice = some v ∨
       ParseFloat d.icannFee = some v ∨
       ParseFloat d.eapFee = some v) → 0 ≤ v := by
    intro d hd v hv
    simp only [List.mem_singleton] at hd
    subst hd
    rcases hv with hv | hv | hv | hv <;>
    · simp only [sampleErrorRecord] at hv
      rw [show ParseFloat "" = some (0 : ℚ) from rfl] at hv
      injection hv with h0
      exact le_of_eq h0
  exact ⟨h, result_fees_nonneg_of_nonneg_upstream [sampleErrorRecord] h⟩

/-- The request issued by `checkDomains` when the endpoint parses: the
endpoint as base plus the six query parameters. -/
theorem checkDomains_trace (parseOK : String → Bool)
    (http : BuiltURL → Except Unit APIResponse) (n : Service) (domains : List String)
    (hp : parseOK n.config.endpoint = true) :
    (checkDomains parseOK http n domains).2 =
      [{ base := n.config.endpoint
         query :=
           [("ApiUser", n.config.apiUser), ("ApiKey", n.config.apiKey),
            ("UserName", n.config.userName), ("ClientIp", n.config.clientIP),
            ("Command", "namecheap.domains.check"),
            ("DomainList", String.intercalate "," domains)] }] := by
  have hbuild : buildRequestURL parseOK n n.config.endpoint
      (String.intercalate "," domains) =
      Except.ok
        { base := n.config.endpoint
          query :=
            [("ApiUser", n.config.apiUser), ("ApiKey", n.config.apiKey),
             ("UserName", n.config.userName), ("ClientIp", n.config.clientIP),
             ("Command", "namecheap.domains.check"),
             ("DomainList", String.intercalate "," domains)] } := by
    unfold buildRequestURL
    rw [if_pos hp]
  unfold checkDomains
  dsimp only
  rw [hbuild]
  rcases hh : http
      { base := n.config.endpoint
        query :=
          [("ApiUser", n.config.apiUser), ("ApiKey", n.config.apiKey),
           ("UserName", n.config.userName), ("ClientIp", n.config.clientIP),
           ("Command", "namecheap.domains.check"),
           ("DomainList", String.intercalate "," domains)] } with e | resp <;>
    simp [hh, apply_ite]

/-- C2: `DomainsCheck` fails with `ErrMissingDomains` on an empty domain
list and with `ErrMaxDomainsExceeded` on a list longer than
`maxDomainsPerCheck` (50), in both cases issuing no HTTP request (empty
request trace); on a list of length 1..50 it proceeds to request
construction, behaving exactly as `checkDomains`. -/
theorem domainsCheck_validates_before_network
    (parseOK : String → Bool) (http : BuiltURL → Except Unit APIResponse)
    (n : Service) (domains : List String) :
    (domains.length = 0 →
      DomainsCheck parseOK http n domains = (Except.error NCError.missingDomains, [])) ∧
    (domains.length > maxDomainsPerCheck →
      DomainsCheck parseOK http n domains = (Except.error NCError.maxDomainsExceeded, [])) ∧
    (1 ≤ domains.length → domains.length ≤ maxDomainsPerCheck →
      DomainsCheck parseOK http n domains = checkDomains parseOK http n domains) := by
  refine ⟨?_, ?_, ?_⟩
  · intro h; simp only [DomainsCheck, if_pos h]
  · intro h
    simp only [DomainsCheck]
    rw [if_neg (by omega), if_pos h]
  · intro h1 h2
    simp only [DomainsCheck]
    rw [if_neg (by omega), if_neg (by omega)]

/-- C2 witness: the three cases at the empty list, a 51-element list and
a singleton list. -/
theorem domainsCheck_validates_before_network_witness :
    (([] : List String).length = 0 ∧
      DomainsCheck (fun _ => true) (fun _ => Except.error ()) sampleService [] =
        (Except.error NCError.missingDomains, [])) ∧
    ((List.replicate 51 "a").length > maxDomainsPerCheck ∧
      DomainsCheck (fun _ => true) (fun _ => Except.error ()) sampleService
          (List.replicate 51 "a") = (Except.error NCError.maxDomainsExceeded, [])) ∧
    (1 ≤ (["example.com"] : List String).length ∧
      (["example.com"] : List String).length ≤ maxDomainsPerCheck ∧
      DomainsCheck (fun _ => true) (fun _ => Except.error ()) sampleService ["example.com"] =
        checkDomains (fun _ => true) (fun _ => Except.error ()) sampleService ["example.com"]) :=
  ⟨⟨rfl, (domainsCheck_validates_before_network _ _ _ _).1 rfl⟩,
   ⟨by decide, (domainsCheck_validates_before_network _ _ _ _).2.1 (by decide)⟩,
   ⟨by decide, by decide,
    (domainsCheck_validates_before_network _ _ _ _).2.2 (by decide) (by decide)⟩⟩

/-- C3: construction fails with `ErrMissingAPICredentials` exactly when at
least one of API user, API key, account username or client IP is empty; the
endpoint is never inspected, so an empty endpoint alone never causes a
construction error. -/
theorem construction_missing_credentials_iff (config : Config) :
    (NewNamecheapTool config = Except.error NCError.missingAPICredentials ↔
      config.apiUser = "" ∨ config.apiKey = "" ∨ config.userName = "" ∨
      config.clientIP = "") ∧
    (config.apiUser ≠ "" → config.apiKey ≠ "" → config.userName ≠ "" →
      config.clientIP ≠ "" → NewNamecheapTool config = Except.ok { config := config }) := by
  constructor
  · unfold NewNamecheapTool
    split
    · rename_i hb
      simp only [Bool.or_eq_true, beq_iff_eq] at hb
      exact iff_of_true rfl (by tauto)
    · rename_i hb
      simp only [Bool.or_eq_true, beq_iff_eq] at hb
      exact iff_of_false (by simp) (by tauto)
  · intro h1 h2 h3 h4
    unfold NewNamecheapTool
    rw [if_neg]
    simp [h1, h2, h3, h4]

/-- C3 witness: full credentials with an empty endpoint construct
successfully; dropping the API key alone fails with
`ErrMissingAPICredentials`. -/
theorem construction_missing_credentials_iff_witness :
    (sampleConfig.apiUser ≠ "" ∧ sampleConfig.apiKey ≠ "" ∧ sampleConfig.userName ≠ "" ∧
      sampleConfig.clientIP ≠ "" ∧
      NewNamecheapTool { sampleConfig with endpoint := "" } =
        Except.ok { config := { sampleConfig with endpoint := "" } }) ∧
    NewNamecheapTool { sampleConfig with apiKey := "" } =
      Except.error NCError.missingAPICredentials :=
  ⟨⟨by decide, by decide, by decide, by decide,
    (construction_missing_credentials_iff _).2 (by decide) (by decide) (by decide) (by decide)⟩,
   (construction_missing_credentials_iff _).1.mpr (Or.inr (Or.inl rfl))⟩

/-- C4: when the decoded envelope's top-level status is not "OK",
`checkDomains` fails with the `ErrAPIError` wrap (no results, no partial
success), carrying the message of the first entry of the envelope's error
list, or "unknown error" when that list is empty. -/
theorem non_ok_status_fails_with_first_error (parseOK : String → Bool) (n : Service)
    (domains : List String) (resp : APIResponse)
    (hp : parseOK n.config.endpoint = true) (hs : resp.status ≠ "OK") :
    (checkDomains parseOK (fun _ => Except.ok resp) n domains).1 =
      Except.error (NCError.apiError (firstErrorMessage resp)) ∧
    (resp.errors.error = [] → firstErrorMessage resp = "unknown error") ∧
    (∀ e rest, resp.errors.error = e :: rest → firstErrorMessage resp = e.message) := by
  refine ⟨?_, ?_, ?_⟩
  · simp [checkDomains, buildRequestURL, hp, hs]
  · intro h; simp [firstErrorMessage, h]
  · intro e rest h; simp [firstErrorMessage, h]

/-- C4 witness: an "ERROR" envelope with one error entry makes the check
fail carrying that entry's message. -/
theorem non_ok_status_fails_with_first_error_witness :
    ((fun _ : String => true) sampleService.config.endpoint = true ∧
      sampleErrorResponse.status ≠ "OK") ∧
    ((checkDomains (fun _ => true) (fun _ => Except.ok sampleErrorResponse) sampleService
        ["example.com"]).1 =
      Except.error (NCError.apiError (firstErrorMessage sampleErrorResponse)) ∧
     (sampleErrorResponse.errors.error = [] →
       firstErrorMessage sampleErrorResponse = "unknown error") ∧
     (∀ e rest, sampleErrorResponse.errors.error = e :: rest →
       firstErrorMessage sampleErrorResponse = e.message)) :=
  ⟨⟨rfl, by decide⟩,
   non_ok_status_fails_with_first_error (fun _ => true) sampleService ["example.com"]
     sampleErrorResponse rfl (by decide)⟩

/-- C7: with credentials {user "testuser", key "testkey", username
"testusername", client IP "192.168.1.1"} and any non-empty domain list, the
built request URL's query parameters are ApiUser=testuser, ApiKey=testkey,
UserName=testusername, ClientIp=192.168.1.1,
Command=namecheap.domains.check, and DomainList is the input domains joined
with commas, verbatim; `checkDomains` issues exactly that request. -/
theorem request_url_query_parameters (parseOK : String → Bool) (endpoint : String)
    (domains : List String) (hp : parseOK endpoint = true) (hne : domains ≠ []) :
    ∃ u : BuiltURL,
      buildRequestURL parseOK { config := testCredentials endpoint } endpoint
          (String.intercalate "," domains) = Except.ok u ∧
      getQuery u "ApiUser" = some "testuser" ∧
      getQuery u "ApiKey" = some "testkey" ∧
      getQuery u "UserName" = some "testusername" ∧
      getQuery u "ClientIp" = some "192.168.1.1" ∧
      getQuery u "Command" = some "namecheap.domains.check" ∧
      getQuery u "DomainList" = some (String.intercalate "," domains) ∧
      ∀ http, (checkDomains parseOK http { config := testCredentials endpoint } domains).2 = [u] := by
  refine
    ⟨{ base := endpoint
       query :=
         [("ApiUser", "testuser"), ("ApiKey", "testkey"), ("UserName", "testusername"),
          ("ClientIp", "192.168.1.1"), ("Command", "namecheap.domains.check"),
          ("DomainList", String.intercalate "," domains)] },
     ?_, rfl, rfl, rfl, rfl, rfl, rfl, ?_⟩
  · unfold buildRequestURL
    rw [if_pos hp]
    rfl
  · intro http
    exact checkDomains_trace parseOK http { config := testCredentials endpoint } domains hp

/-- C7 witness: the property at the production endpoint and the two-domain
list ["example.com", "example.org"]. -/
theorem request_url_query_parameters_witness :
    ((fun _ : String => true) defaultProductionEndpoint = true ∧
      (["example.com", "example.org"] : List String) ≠ []) ∧
    (∃ u : BuiltURL,
      buildRequestURL (fun _ => true) { config := testCredentials defaultProductionEndpoint }
          defaultProductionEndpoint (String.intercalate "," ["example.com", "example.org"]) =
        Except.ok u ∧
      getQuery u "ApiUser" = some "testuser" ∧
      getQuery u "ApiKey" = some "testkey" ∧
      getQuery u "UserName" = some "testusername" ∧
      getQuery u "ClientIp" = some "192.168.1.1" ∧
      getQuery u "Command" = some "namecheap.domains.check" ∧
      getQuery u "DomainList" = some (String.intercalate "," ["example.com", "example.org"]) ∧
      ∀ http,
        (checkDomains (fun _ => true) http { config := testCredentials defaultProductionEndpoint }
            ["example.com", "example.org"]).2 = [u]) :=
  ⟨⟨rfl, by decide⟩,
   request_url_query_parameters (fun _ => true) defaultProductionEndpoint
     ["example.com", "example.org"] rfl (by decide)⟩

/-- C9 counterexample: the claim "a valid configuration with an empty
endpoint has the default production URL substituted as its endpoint" fails:
construction stores the empty endpoint unchanged (and the empty string is
not the default production URL), so a subsequent check builds its request
against the empty base URL, not the production URL.  The production default
exists only as the `envDefault` of `NAMECHEAP_ENDPOINT` in
cmd/app/config.go, applied by the environment loader. -/
theorem empty_endpoint_not_substituted_cex :
    NewNamecheapTool sampleConfigNoEndpoint = Except.ok { config := sampleConfigNoEndpoint } ∧
    sampleConfigNoEndpoint.endpoint = "" ∧
    ("" : String) ≠ defaultProductionEndpoint ∧
    (checkDomains (fun _ => true) (fun _ => Except.error ()) { config := sampleConfigNoEndpoint }
        ["example.com"]).2.map BuiltURL.base = [""] := by
  refine ⟨rfl, rfl, by decide, ?_⟩
  rw [checkDomains_trace (fun _ => true) (fun _ => Except.error ())
    { config := sampleConfigNoEndpoint } ["example.com"] rfl]
  rfl

/-- C9 amended: for every valid credential configuration whose endpoint is
empty, construction succeeds and stores the endpoint verbatim (empty); a
subsequent check builds its request against the empty base URL.  No
substitution happens inside the registrar client; the default production
URL is applied only by the environment configuration loader. -/
theorem empty_endpoint_kept_verbatim (config : Config)
    (h1 : config.apiUser ≠ "") (h2 : config.apiKey ≠ "") (h3 : config.userName ≠ "")
    (h4 : config.clientIP ≠ "") (h5 : config.endpoint = "") :
    NewNamecheapTool config = Except.ok { config := config } ∧
    ∀ (http : BuiltURL → Except Unit APIResponse) (domains : List String),
      (checkDomains (fun _ => true) http { config := config } domains).2.map BuiltURL.base =
        [""] := by
  constructor
  · unfold NewNamecheapTool
    rw [if_neg]
    simp [h1, h2, h3, h4]
  · intro http domains
    rw [checkDomains_trace (fun _ => true) http { config := config } domains rfl]
    simp [h5]

/-- C9 amended witness: the amended property at the concrete valid
configuration with an empty endpoint. -/
theorem empty_endpoint_kept_verbatim_witness :
    (sampleConfigNoEndpoint.apiUser ≠ "" ∧ sampleConfigNoEndpoint.apiKey ≠ "" ∧
     sampleConfigNoEndpoint.userName ≠ "" ∧ sampleConfigNoEndpoint.clientIP ≠ "" ∧
     sampleConfigNoEndpoint.endpoint = "") ∧
    (NewNamecheapTool sampleConfigNoEndpoint = Except.ok { config := sampleConfigNoEndpoint } ∧
     ∀ (http : BuiltURL → Except Unit APIResponse) (domains : List String),
       (checkDomains (fun _ => true) http { config := sampleConfigNoEndpoint }
           domains).2.map BuiltURL.base = [""]) :=
  ⟨⟨by decide, by decide, by decide, by decide, rfl⟩,
   empty_endpoint_kept_verbatim sampleConfigNoEndpoint (by decide) (by decide) (by decide)
     (by decide) rfl⟩

end Namecheap

namespace ToolAdapter

/-- C8: the adapter's `Handler` returns the wrapped component's execute
failure verbatim with no content payload; when execute succeeds but the
output has no JSON representation it fails with the marshalling error and
produces no payload; when serialization succeeds it returns exactly one
content unit holding the serialized output, annotated with audience
"assistant" and priority 1, alongside the output and no error. -/
theorem handler_passthrough_and_serialization {In Out E : Type} [Inhabited Out]
    (execute : In → Except E Out) (jsonMarshal : Out → Except String String) (args : In) :
    (∀ e, execute args = Except.error e →
      Handler execute jsonMarshal args = (none, default, some (HandlerFailure.execute e))) ∧
    (∀ out msg, execute args = Except.ok out → jsonMarshal out = Except.error msg →
      Handler execute jsonMarshal args =
        (none, default, some (HandlerFailure.marshalFailed msg))) ∧
    (∀ out jsonData, execute args = Except.ok out → jsonMarshal out = Except.ok jsonData →
      Handler execute jsonMarshal args =
        (some
          { isError := false
            content :=
              [{ text := jsonData
                 annotations := { audience := ["assistant"], priority := 1 } }] },
         out, none)) := by
  refine ⟨?_, ?_, ?_⟩
  · intro e he
    simp [Handler, he]
  · intro out msg h1 h2
    simp [Handler, h1, h2]
  · intro out jsonData h1 h2
    simp [Handler, h1, h2]

/-- C8 witness: the three cases at concrete components over `Unit`, `Nat`
and `String`. -/
theorem handler_passthrough_and_serialization_witness :
    ((fun _ : Unit => (Except.error "boom" : Except String Nat)) () = Except.error "boom" ∧
      Handler (fun _ : Unit => (Except.error "boom" : Except String Nat))
          (fun n => Except.ok (Nat.repr n)) () =
        (none, default, some (HandlerFailure.execute "boom"))) ∧
    ((fun _ : Unit => (Except.ok 7 : Except String Nat)) () = Except.ok 7 ∧
      (fun _ : Nat => (Except.error "unsupported type" : Except String String)) 7 =
        Except.error "unsupported type" ∧
      Handler (fun _ : Unit => (Except.ok 7 : Except String Nat))
          (fun _ : Nat => (Except.error "unsupported type" : Except String String)) () =
        (none, default, some (HandlerFailure.marshalFailed "unsupported type"))) ∧
    (Handler (fun _ : Unit => (Except.ok 7 : Except String Nat))
        (fun n => Except.ok (Nat.repr n)) () =
      (some
        { isError := false
          content :=
            [{ text := Nat.repr 7
               annotations := { audience := ["assistant"], priority := 1 } }] },
       7, none)) :=
  ⟨⟨rfl,
    (handler_passthrough_and_serialization (fun _ : Unit => Except.error "boom")
        (fun n => Except.ok (Nat.repr n)) ()).1 "boom" rfl⟩,
   ⟨rfl, rfl,
    (handler_passthrough_and_serialization (fun _ : Unit => (Except.ok 7 : Except String Nat))
        (fun _ : Nat => Except.error "unsupported type") ()).2.1 7 "unsupported type" rfl rfl⟩,
   (handler_passthrough_and_serialization (fun _ : Unit => (Except.ok 7 : Except String Nat))
       (fun n => Except.ok (Nat.repr n)) ()).2.2 7 (Nat.repr 7) rfl rfl⟩

end ToolAdapter
